import Mathlib

/-!
Verification of the CertificateRequest reconciliation engine of the
cert-manager fork: a shallow embedding of the controller code
(pkg/controller/certificaterequests sync logic, the approval admission
gate, and issuer-reference resolution), together with theorems checking
the design document against it.

Certificates, signing requests and PEM blobs are embedded symbolically:
a byte string is represented by what it decodes to, so the pem/x509
parsers of the Go standard library become total functions on that
representation.  Times are integers, and the injected clock is an
explicit parameter.  External collaborators (validation functions, the
issuer lister, the signing backend, the store update call and the
subject-access-review client) are fields of an environment record, so a
round of the controller is a pure function from the environment and the
incoming object to an outcome that also records every backend Sign call
and every store write the round performed.
-/

namespace CertManager

/-- Status of a condition: True / False / Unknown. -/
inductive ConditionStatus where
  | ctrue
  | cfalse
  | cunknown
deriving DecidableEq, Repr

/-- A status condition: Type, Status, Reason, Message, LastTransitionTime
(the transition time is a nullable pointer in the source). -/
structure Condition where
  ctype : String
  cstatus : ConditionStatus
  reason : String
  message : String
  lastTransitionTime : Option Int
deriving DecidableEq, Repr

/-- Reference to an issuer: name, kind and API group. -/
structure ObjectReference where
  name : String
  kind : String
  group : String
deriving DecidableEq, Repr

/-- The identity attributes carried by a parsed x509 certificate signing
request: common name, DNS names, URI SANs (as canonical strings) and IP
SANs (as strings). -/
structure CSR where
  commonName : String
  dnsNames : List String
  uris : List String
  ipAddresses : List String
deriving DecidableEq, Repr

/-- A parsed x509 certificate: the identity attributes compared by the
match evaluator, the serial number and the NotAfter instant. -/
structure Cert where
  commonName : String
  dnsNames : List String
  uris : List String
  ipAddresses : List String
  serialNumber : Int
  notAfter : Int
deriving DecidableEq, Repr

/-- Symbolic byte strings: a blob is represented by what it decodes to.
`empty` is the zero-length slice; `garbage` is non-empty bytes that are
not a PEM block; `pemBadDer` is a PEM block whose payload fails ASN.1
parsing; `pemCsr` and `pemCert` are PEM blocks wrapping a well-formed
certificate signing request respectively certificate. -/
inductive Bytes where
  | empty
  | garbage (id : Nat)
  | pemBadDer (id : Nat)
  | pemCsr (csr : CSR)
  | pemCert (cert : Cert)
deriving DecidableEq, Repr

/-- Whether the byte string has length zero (the len(b) == 0 checks). -/
def bytesLen0 : Bytes → Bool
  | .empty => true
  | _ => false

/-- Whether pem.Decode returns a non-nil block for these bytes. -/
def pemDecodeOk : Bytes → Bool
  | .empty => false
  | .garbage _ => false
  | _ => true

/-- Result of x509.ParseCertificateRequest on the payload of a decoded
PEM block. -/
def parseCertificateRequest : Bytes → Except String CSR
  | .pemCsr csr => .ok csr
  | _ => .error "error parsing certificate signing request"

/-- Result of x509.ParseCertificate on the payload of a decoded PEM
block. -/
def parseCertificate : Bytes → Except String Cert
  | .pemCert cert => .ok cert
  | _ => .error "error parsing certificate"

/-- Spec of a CertificateRequest: the immutable CSR bytes, the issuer
reference and the is-CA flag. -/
structure CertificateRequestSpec where
  csrPEM : Bytes
  issuerRef : ObjectReference
  isCA : Bool
deriving DecidableEq, Repr

/-- Status of a CertificateRequest: issued certificate bytes, CA bytes,
the NotAfter timestamp and the conditions. -/
structure CertificateRequestStatus where
  certificate : Bytes
  ca : Bytes
  notAfter : Option Int
  conditions : List Condition
deriving DecidableEq, Repr

/-- A CertificateRequest object (name, namespace, spec, status). -/
structure CertificateRequest where
  name : String
  ns : String
  spec : CertificateRequestSpec
  status : CertificateRequestStatus
deriving DecidableEq, Repr

/-- An issuer object as seen by the engine: a name and its status
conditions. -/
structure GenericIssuer where
  name : String
  conditions : List Condition
deriving DecidableEq, Repr

/-- Modelled from the spec: apiutil.IssuerHasCondition is not under src/.
Section 4.3 describes HasCondition as an exact structural match on Type
and Status only, reason and message ignored. -/
def IssuerHasCondition (iss : GenericIssuer) (ctype : String) (cstatus : ConditionStatus) : Bool :=
  iss.conditions.any fun c => c.ctype == ctype && c.cstatus == cstatus

/-- Modelled from the spec: apiutil.SetCertificateRequestCondition is not
under src/.  Section 4.3 Condition Store logic: find the existing
condition of the type; if absent, append a new one with the current
timestamp; if present and the status differs, update status and
timestamp; always refresh reason and message.  This helper rewrites the
condition list. -/
def setConditionList (now : Int) (ctype : String) (cstatus : ConditionStatus)
    (reason message : String) : List Condition → List Condition
  | [] => [⟨ctype, cstatus, reason, message, some now⟩]
  | c :: rest =>
    if c.ctype = ctype then
      ⟨ctype, cstatus, reason, message,
        if c.cstatus = cstatus then c.lastTransitionTime else some now⟩ :: rest
    else
      c :: setConditionList now ctype cstatus reason message rest

/-- Set-or-update a condition on a CertificateRequest status. -/
def SetCertificateRequestCondition (now : Int) (cr : CertificateRequest) (ctype : String)
    (cstatus : ConditionStatus) (reason message : String) : CertificateRequest :=
  { cr with status := { cr.status with
      conditions := setConditionList now ctype cstatus reason message cr.status.conditions } }

/-- Modelled from the spec: internalutil.GetCertificateRequestCondition is
not under src/.  Section 4.3 read-by-type: return the first condition
with the given type, or nothing. -/
def GetCertificateRequestCondition (conditions : List Condition) (ctype : String) : Option Condition :=
  conditions.find? fun c => c.ctype == ctype

/-- Modelled from the spec: util.EqualUnsorted is not under src/.  The
evaluator compares DNS, URI and IP lists with order-independent
(multiset) equality. -/
def EqualUnsorted (s1 s2 : List String) : Bool :=
  s1.length == s2.length && s1.all fun x => s1.count x == s2.count x

/-- Modelled from the spec: pki.CommonNameForCertificateRequest is not
under src/.  The expected common name implied by the signing request is
the requested common name; when that is empty it falls back to the first
requested DNS name (covering backends that synthesize a CN), and is
empty when there is none. -/
def CommonNameForCertificateRequest (csr : CSR) : String :=
  if csr.commonName ≠ "" then csr.commonName
  else match csr.dnsNames with
    | [] => ""
    | d :: _ => d

/-- Modelled from the spec: pki.DNSNamesForCertificateRequest is not
under src/.  The DNS names implied by the signing request are the
requested DNS names; when none are requested the requested common name
stands in, if present. -/
def DNSNamesForCertificateRequest (csr : CSR) : List String :=
  match csr.dnsNames with
  | [] => if csr.commonName = "" then [] else [csr.commonName]
  | ds => ds

/-- The x509 match evaluator certificateMatchesSpec: compares the
certificate against the attributes implied by the CSR, collecting a
reason string for every mismatching field, and returns whether the
collected list is empty. -/
def certificateMatchesSpec (_cr : CertificateRequest) (csr : CSR) (cert : Cert) :
    Bool × List String :=
  let errs : List String := []
  let expectedCN := CommonNameForCertificateRequest csr
  let errs := if expectedCN ≠ cert.commonName then
      errs ++ ["Common name on TLS certificate not up to date: " ++ cert.commonName]
    else errs
  let errs := if ¬ EqualUnsorted cert.dnsNames (DNSNamesForCertificateRequest csr) then
      errs ++ ["DNS names on TLS certificate not up to date"]
    else errs
  let errs := if ¬ EqualUnsorted cert.uris csr.uris then
      errs ++ ["URLs on TLS certificate not up to date"]
    else errs
  let errs := if ¬ EqualUnsorted cert.ipAddresses csr.ipAddresses then
      errs ++ ["IP addresses on TLS certificate not up to date"]
    else errs
  (errs.isEmpty, errs)

/-- The fixed sentinel serial number marking a temporary certificate. -/
def staticTemporarySerialNumber : Int := 0x1234567890

/-- Go conversion of a uint64 bit pattern to int64 (two's complement
reinterpretation of the low 64 bits). -/
def int64OfUInt64 (u : Nat) : Int :=
  if u < 2 ^ 63 then (u : Int) else (u : Int) - 2 ^ 64

/-- Int64 negation, wrapping at the minimum value as Go negation does. -/
def int64Neg (v : Int) : Int :=
  if v = -(2 ^ 63) then v else -v

/-- Semantics of the math/big Int64 conversion on an arbitrary integer:
the low 64 bits of the absolute value reinterpreted as int64, negated
with int64 wraparound when the integer is negative. -/
def bigIntInt64 (x : Int) : Int :=
  let v := int64OfUInt64 (x.natAbs % 2 ^ 64)
  if x < 0 then int64Neg v else v

/-- Whether the certificate is a temporary certificate: the source
compares SerialNumber.Int64() — the serial truncated to int64 — to the
sentinel, so serials whose truncation aliases the sentinel count as
temporary; nil certificates are not temporary. -/
def isTemporaryCertificate : Option Cert → Bool
  | none => false
  | some cert => bigIntInt64 cert.serialNumber == staticTemporarySerialNumber

/-- The message written with the Expired reason (the RFC822 time
formatting of the source is abstracted to toString). -/
def expiredMessage (cert : Cert) : String :=
  "Certificate has expired on " ++ toString cert.notAfter

/-- The message written with the Ready reason. -/
def readyMessage : String :=
  "Certificate is up to date and has not expired"

/-- The message written with the TemporaryCertificate reason. -/
def temporaryMessage : String :=
  "Certificate issuance in progress. Temporary certificate issued."

/-- setCertificateRequestStatus: recompute NotAfter and the Ready
condition of the request from the parsed certificate state, without
writing to the store.  The branch order of the source switch is kept:
temporary certificate, then expiry against the injected clock, then the
match evaluator, then Ready. -/
def setCertificateRequestStatus (now : Int) (cr : CertificateRequest) (csr : CSR) :
    Option Cert → CertificateRequest
  | none =>
    SetCertificateRequestCondition now cr "Ready" .cfalse "NotFound" "Certificate does not exist"
  | some cert =>
    let cr1 := { cr with status := { cr.status with notAfter := some cert.notAfter } }
    let m := certificateMatchesSpec cr1 csr cert
    if isTemporaryCertificate (some cert) then
      let cr2 := { cr1 with status := { cr1.status with notAfter := none } }
      SetCertificateRequestCondition now cr2 "Ready" .cfalse "TemporaryCertificate" temporaryMessage
    else if cert.notAfter < now then
      SetCertificateRequestCondition now cr1 "Ready" .cfalse "Expired" (expiredMessage cert)
    else if ¬ m.1 then
      SetCertificateRequestCondition now cr1 "Ready" .cfalse "DoesNotMatch"
        (String.intercalate ", " m.2)
    else
      SetCertificateRequestCondition now cr1 "Ready" .ctrue "Ready" readyMessage

/-- Errors flowing out of a Sync round: a plain message (errors.New and
the fmt / parser errors) or an aggregate (utilerrors.NewAggregate). -/
inductive SyncError where
  | msg (s : String)
  | aggregate (errs : List SyncError)

/-- utilerrors.NewAggregate: drop the nil entries; nothing left means no
error, otherwise an aggregate of what remains. -/
def newAggregate (errlist : List (Option SyncError)) : Option SyncError :=
  match errlist.filterMap id with
  | [] => none
  | es => some (.aggregate es)

/-- The value a backend Sign call returns: certificate bytes and CA
bytes. -/
structure IssueResponse where
  certificate : Bytes
  ca : Bytes
deriving DecidableEq, Repr

/-- Outcome of a backend Sign call: an error, no response (nil), or a
response. -/
abbrev SignResult := Except String (Option IssueResponse)

/-- Outcome of resolving the issuer object through the helper: the store
says not-found, some other retrieval failure, or the issuer. -/
inductive IssuerGetResult where
  | notFound (s : String)
  | failure (s : String)
  | found (iss : GenericIssuer)

/-- The collaborators a Sync round consults, made explicit: the two
validation functions, the issuer helper, the issuer factory (whose
result is the Sign function of the backend), the result of a store
Update call, and the injected clock. -/
structure SyncEnv where
  validateCR : CertificateRequest → List String
  getIssuer : ObjectReference → String → IssuerGetResult
  validateForIssuer : CertificateRequest → GenericIssuer → List String
  issuerFor : GenericIssuer → Except String (CertificateRequest → SignResult)
  updateResult : Option String
  now : Int

/-- What the body of a Sync round (everything before the deferred status
write) produces: the mutated working copy, the error it would return,
and the list of requests passed to the backend Sign function. -/
structure SyncBodyResult where
  cr : CertificateRequest
  err : Option SyncError
  signCalls : List CertificateRequest

/-- The sign step: call the backend; an error is returned as the round
error; a nil response is a no-op; a response with a non-empty
certificate is copied into status (certificate and CA). -/
def sign (backendSign : CertificateRequest → SignResult) (cr : CertificateRequest) :
    SyncBodyResult :=
  match backendSign cr with
  | .error e => ⟨cr, some (.msg e), [cr]⟩
  | .ok none => ⟨cr, none, [cr]⟩
  | .ok (some resp) =>
    if bytesLen0 resp.certificate then ⟨cr, none, [cr]⟩
    else ⟨{ cr with status := { cr.status with certificate := resp.certificate, ca := resp.ca } },
          none, [cr]⟩

/-- The body of Sync, in source order: CSR length and PEM checks, CSR
parse, status certificate length and PEM checks, certificate parse,
status recomputation, resource validation, issuer retrieval, issuer
validation, issuer readiness, backend construction, and the dispatch to
sign on a temporary certificate or an evaluator mismatch.  The source
also guards on a nil certificate just before the match check; after a
successful parse the certificate is never nil, so that branch cannot
fire and has no counterpart here. -/
def syncBody (env : SyncEnv) (cr : CertificateRequest) : SyncBodyResult :=
  let crCopy := cr
  if bytesLen0 cr.spec.csrPEM then ⟨crCopy, some (.msg "CSRNotFound"), []⟩
  else if ¬ pemDecodeOk cr.spec.csrPEM then ⟨crCopy, some (.msg "CSRParseError"), []⟩
  else match parseCertificateRequest cr.spec.csrPEM with
  | .error e => ⟨crCopy, some (.msg e), []⟩
  | .ok csr =>
    if bytesLen0 cr.status.certificate then ⟨crCopy, some (.msg "CertNotFound"), []⟩
    else if ¬ pemDecodeOk cr.status.certificate then ⟨crCopy, some (.msg "CertParseError"), []⟩
    else match parseCertificate cr.status.certificate with
    | .error e => ⟨crCopy, some (.msg e), []⟩
    | .ok cert =>
      let crCopy := setCertificateRequestStatus env.now crCopy csr (some cert)
      if (env.validateCR crCopy).length > 0 then ⟨crCopy, none, []⟩
      else match env.getIssuer crCopy.spec.issuerRef crCopy.ns with
      | .notFound _ => ⟨crCopy, none, []⟩
      | .failure e => ⟨crCopy, some (.msg e), []⟩
      | .found issuerObj =>
        if (env.validateForIssuer crCopy issuerObj).length > 0 then ⟨crCopy, none, []⟩
        else if ¬ IssuerHasCondition issuerObj "Ready" .ctrue then ⟨crCopy, none, []⟩
        else match env.issuerFor issuerObj with
        | .error _ => ⟨crCopy, none, []⟩
        | .ok backendSign =>
          if isTemporaryCertificate (some cert) then sign backendSign crCopy
          else if ¬ (certificateMatchesSpec crCopy csr cert).1 then sign backendSign crCopy
          else ⟨crCopy, none, []⟩

/-- updateCertificateStatus: serialize the old and new status; identical
serializations collapse to a no-op, otherwise the new object is written
through the store Update call.  The first component is the status
submitted to the store (present exactly when an Update was issued); the
serialization of the status record is injective, so byte equality of the
serializations is structural equality.  -/
def updateCertificateStatus (env : SyncEnv) (old new : CertificateRequest) :
    Option CertificateRequestStatus × Option SyncError :=
  if old.status = new.status then (none, none)
  else (some new.status,
    match env.updateResult with
    | some e => some (.msg e)
    | none => none)

/-- Everything one Sync round did: the final working copy, the returned
error, the backend Sign calls and the status written to the store. -/
structure SyncOutcome where
  cr : CertificateRequest
  err : Option SyncError
  signCalls : List CertificateRequest
  updated : Option CertificateRequestStatus

/-- Sync: run the body on a deep copy of the incoming object, then (the
deferred closure, which runs on every exit path) attempt the status
write; a save error is aggregated with whatever error the body produced,
via newAggregate of the pair save-error-first. -/
def Sync (env : SyncEnv) (cr : CertificateRequest) : SyncOutcome :=
  let body := syncBody env cr
  let save := updateCertificateStatus env cr body.cr
  let err := match save.2 with
    | some saveErr => newAggregate [some saveErr, body.err]
    | none => body.err
  ⟨body.cr, err, body.signCalls, save.1⟩

/-- The acting identity of an admission request. -/
structure UserInfo where
  username : String
  groups : List String
  uid : String
deriving DecidableEq, Repr

/-- A subject-access-review request as handed to the authorization
collaborator. -/
structure SARCall where
  user : String
  groups : List String
  uid : String
  group : String
  resource : String
  rname : String
  ns : String
  verb : String
deriving DecidableEq, Repr

/-- The API group of the signers resource (certmanager.GroupName). -/
def certmanagerGroupName : String := "cert-manager.io"

/-- Go filepath.Join on two components, faithful for components that
contain no slash or dot segments (issuer groups and kinds): an empty
component disappears, two non-empty components are joined with one
slash. -/
def goFilepathJoin (a b : String) : String :=
  if a = "" then b else if b = "" then a else a ++ "/" ++ b

/-- reviewRequest: build the subject-access-review for the acting
identity, on resource signers, named group/kind of the issuer reference,
in the namespace of the request, with the given verb.  The embedding
returns the call itself; the environment answers it. -/
def reviewRequest (ui : UserInfo) (cr : CertificateRequest) (verb : String) : SARCall :=
  { user := ui.username
    groups := ui.groups
    uid := ui.uid
    group := certmanagerGroupName
    resource := "signers"
    rname := goFilepathJoin cr.spec.issuerRef.group cr.spec.issuerRef.kind
    ns := cr.ns
    verb := verb }

/-- A field error produced by the admission review. -/
inductive FieldError where
  | internalError (path : String) (msg : String)
  | forbidden (path : String) (msg : String)
deriving DecidableEq, Repr

/-- The Forbidden message of the approval gate. -/
def forbiddenMessage : String :=
  "user does not have permissions to set approved/deny conditions"

/-- What a Review invocation did: the field errors it returned and the
subject-access-review calls it issued. -/
structure ReviewOutcome where
  errors : List FieldError
  calls : List SARCall
deriving DecidableEq, Repr

/-- Review: if the Approved condition differs between old and new object
(deep structural comparison of the condition read by type), check the
approve permission; otherwise if the Denied condition differs, check the
deny permission; otherwise pass without consulting the collaborator.  A
transport error surfaces as an internal error, a negative answer as a
Forbidden error. -/
def Review (sarCreate : SARCall → Except String Bool) (ui : UserInfo)
    (oldCR newCR : CertificateRequest) : ReviewOutcome :=
  let run : String → Except String Bool × List SARCall := fun verb =>
    let call := reviewRequest ui newCR verb
    (sarCreate call, [call])
  let step : Except String Bool × List SARCall :=
    if GetCertificateRequestCondition oldCR.status.conditions "Approved" ≠
        GetCertificateRequestCondition newCR.status.conditions "Approved" then
      run "approve"
    else if GetCertificateRequestCondition oldCR.status.conditions "Denied" ≠
        GetCertificateRequestCondition newCR.status.conditions "Denied" then
      run "deny"
    else (.ok true, [])
  match step with
  | (.error e, calls) => ⟨[.internalError "status.conditions" e], calls⟩
  | (.ok true, calls) => ⟨[], calls⟩
  | (.ok false, calls) => ⟨[.forbidden "status.conditions" forbiddenMessage], calls⟩

/-- The namespaced issuer kind string. -/
def IssuerKind : String := "Issuer"

/-- The cluster-scoped issuer kind string. -/
def ClusterIssuerKind : String := "ClusterIssuer"

/-- The listers backing issuer resolution: a namespaced lister
(namespace then name) and an optional cluster-scoped lister. -/
structure getterImpl where
  issuerLister : String → String → Option GenericIssuer
  clusterIssuerLister : Option (String → Option GenericIssuer)

/-- Errors of issuer resolution: the lister reports not-found, the
cluster lister is absent, or the reference kind is not accepted. -/
inductive GetterError where
  | notFound (kind ns name : String)
  | clusterScoped (msg : String)
  | invalidKind (msg : String)
deriving DecidableEq, Repr

/-- The message of the missing-cluster-lister error. -/
def clusterScopedMessage (name : String) : String :=
  "cannot get ClusterIssuer named " ++ name ++ " as cert-manager is scoped to a single namespace"

/-- The message of the invalid-kind error; it names the two accepted
kinds. -/
def invalidKindMessage (kind : String) : String :=
  "invalid value " ++ kind ++ " for issuerRef.kind. Must be empty, " ++
    IssuerKind ++ " or " ++ ClusterIssuerKind

/-- Issuer resolution, dispatching on the reference kind: empty or the
namespaced kind reads through the namespaced lister under the supplied
namespace; the cluster-scoped kind reads through the cluster lister
(failing explicitly when that lister is absent); anything else is the
invalid-kind error. -/
def getterImpl.Issuer (h : getterImpl) (ref : ObjectReference) (ns : String) :
    Except GetterError GenericIssuer :=
  if ref.kind = "" ∨ ref.kind = IssuerKind then
    match h.issuerLister ns ref.name with
    | some iss => .ok iss
    | none => .error (.notFound IssuerKind ns ref.name)
  else if ref.kind = ClusterIssuerKind then
    match h.clusterIssuerLister with
    | none => .error (.clusterScoped (clusterScopedMessage ref.name))
    | some lister =>
      match lister ref.name with
      | some iss => .ok iss
      | none => .error (.notFound ClusterIssuerKind "" ref.name)
  else
    .error (.invalidKind (invalidKindMessage ref.kind))

/-! Helper lemmas about the embedded operations, shared by the claim
theorems below. -/

/-- The sign step passes exactly one request to the backend, whatever the
backend answers. -/
theorem sign_signCalls (b : CertificateRequest → SignResult) (x : CertificateRequest) :
    (sign b x).signCalls = [x] := by
  unfold sign
  rcases b x with e | o
  · rfl
  · rcases o with _ | resp
    · rfl
    · by_cases hc : bytesLen0 resp.certificate <;> simp [hc]

/-- The sign step never touches the NotAfter field of the status. -/
theorem sign_notAfter (b : CertificateRequest → SignResult) (x : CertificateRequest) :
    (sign b x).cr.status.notAfter = x.status.notAfter := by
  unfold sign
  rcases b x with e | o
  · rfl
  · rcases o with _ | resp
    · rfl
    · by_cases hc : bytesLen0 resp.certificate <;> simp [hc]

/-- When every identity attribute of the certificate agrees with the CSR,
the evaluator reports a match with no reasons. -/
theorem certificateMatchesSpec_all_match (cr : CertificateRequest) (csr : CSR) (cert : Cert)
    (hCN : CommonNameForCertificateRequest csr = cert.commonName)
    (hDNS : EqualUnsorted cert.dnsNames (DNSNamesForCertificateRequest csr) = true)
    (hURI : EqualUnsorted cert.uris csr.uris = true)
    (hIP : EqualUnsorted cert.ipAddresses csr.ipAddresses = true) :
    certificateMatchesSpec cr csr cert = (true, []) := by
  simp [certificateMatchesSpec, hCN, hDNS, hURI, hIP]

/-- A certificate whose serial number truncated to int64 is not the
sentinel is not temporary. -/
theorem isTemporaryCertificate_false (cert : Cert)
    (h : bigIntInt64 cert.serialNumber ≠ staticTemporarySerialNumber) :
    isTemporaryCertificate (some cert) = false := by
  simp [isTemporaryCertificate, h]

/-- A certificate carrying the sentinel serial number is temporary (the
sentinel fits in int64, so the truncation is the identity on it). -/
theorem isTemporaryCertificate_true (cert : Cert)
    (h : cert.serialNumber = staticTemporarySerialNumber) :
    isTemporaryCertificate (some cert) = true := by
  show (bigIntInt64 cert.serialNumber == staticTemporarySerialNumber) = true
  rw [h]
  decide

/-- When the CSR parses, the status certificate parses, both validations
pass, the issuer is found and Ready and the factory yields a backend,
the body of Sync reduces to the signing dispatch on the status-updated
copy. -/
theorem syncBody_dispatch (env : SyncEnv) (cr : CertificateRequest) (csr : CSR) (cert : Cert)
    (iss : GenericIssuer) (b : CertificateRequest → SignResult)
    (hcsr : cr.spec.csrPEM = .pemCsr csr)
    (hcert : cr.status.certificate = .pemCert cert)
    (hval : ∀ x, env.validateCR x = [])
    (hiss : ∀ r n, env.getIssuer r n = .found iss)
    (hvalIss : ∀ x i, env.validateForIssuer x i = [])
    (hready : IssuerHasCondition iss "Ready" .ctrue = true)
    (hfac : env.issuerFor iss = .ok b) :
    syncBody env cr =
      (let crCopy := setCertificateRequestStatus env.now cr csr (some cert)
       if isTemporaryCertificate (some cert) then sign b crCopy
       else if ¬ (certificateMatchesSpec crCopy csr cert).1 then sign b crCopy
       else ⟨crCopy, none, []⟩) := by
  unfold syncBody
  simp [hcsr, hcert, bytesLen0, pemDecodeOk, parseCertificateRequest, parseCertificate,
    hval, hiss, hvalIss, hready, hfac]

/-- Setting a condition that is already present with identical fields
leaves a singleton condition list unchanged. -/
theorem setConditionList_noop (now : Int) (t : String) (s : ConditionStatus) (r m : String)
    (ltt : Option Int) :
    setConditionList now t s r m [⟨t, s, r, m, ltt⟩] = [⟨t, s, r, m, ltt⟩] := by
  simp [setConditionList]

/-- After set-or-update, reading the condition by its type finds exactly
the written type, status, reason and message. -/
theorem getCondition_setConditionList (now : Int) (t : String) (s : ConditionStatus)
    (r m : String) (l : List Condition) :
    ∃ ltt, GetCertificateRequestCondition (setConditionList now t s r m l) t =
      some ⟨t, s, r, m, ltt⟩ := by
  induction l with
  | nil =>
    exact ⟨some now, by simp [setConditionList, GetCertificateRequestCondition, List.find?]⟩
  | cons c rest ih =>
    by_cases hc : c.ctype = t
    · refine ⟨if c.cstatus = s then c.lastTransitionTime else some now, ?_⟩
      simp [setConditionList, hc, GetCertificateRequestCondition, List.find?]
    · obtain ⟨ltt, hltt⟩ := ih
      refine ⟨ltt, ?_⟩
      simpa [setConditionList, hc, GetCertificateRequestCondition, List.find?_cons,
        List.find?] using hltt

/-- On a temporary certificate the status recomputation clears the
NotAfter field. -/
theorem setStatus_temporary_notAfter (now : Int) (cr : CertificateRequest) (csr : CSR)
    (cert : Cert) (h : cert.serialNumber = staticTemporarySerialNumber) :
    (setCertificateRequestStatus now cr csr (some cert)).status.notAfter = none := by
  unfold setCertificateRequestStatus
  simp [isTemporaryCertificate_true cert h, SetCertificateRequestCondition]

/-- On a non-temporary certificate whose NotAfter is strictly before the
clock, the status recomputation writes the Expired condition. -/
theorem setStatus_expired (now : Int) (cr : CertificateRequest) (csr : CSR) (cert : Cert)
    (hnt : bigIntInt64 cert.serialNumber ≠ staticTemporarySerialNumber)
    (hexp : cert.notAfter < now) :
    setCertificateRequestStatus now cr csr (some cert) =
      SetCertificateRequestCondition now
        { cr with status := { cr.status with notAfter := some cert.notAfter } }
        "Ready" .cfalse "Expired" (expiredMessage cert) := by
  unfold setCertificateRequestStatus
  simp [isTemporaryCertificate_false cert hnt, hexp]

/-- When the prior status already reflects a non-temporary, unexpired,
fully matching certificate, the status recomputation is the identity. -/
theorem setStatus_converged (now : Int) (cr : CertificateRequest) (csr : CSR) (cert : Cert)
    (ltt : Option Int)
    (hnt : bigIntInt64 cert.serialNumber ≠ staticTemporarySerialNumber)
    (hexp : ¬ cert.notAfter < now)
    (hCN : CommonNameForCertificateRequest csr = cert.commonName)
    (hDNS : EqualUnsorted cert.dnsNames (DNSNamesForCertificateRequest csr) = true)
    (hURI : EqualUnsorted cert.uris csr.uris = true)
    (hIP : EqualUnsorted cert.ipAddresses csr.ipAddresses = true)
    (hNA : cr.status.notAfter = some cert.notAfter)
    (hconds : cr.status.conditions = [⟨"Ready", .ctrue, "Ready", readyMessage, ltt⟩]) :
    setCertificateRequestStatus now cr csr (some cert) = cr := by
  have hm : ∀ x, certificateMatchesSpec x csr cert = (true, []) :=
    fun x => certificateMatchesSpec_all_match x csr cert hCN hDNS hURI hIP
  obtain ⟨nm, nsp, spec, st⟩ := cr
  obtain ⟨certb, cab, na, conds⟩ := st
  simp only at hNA hconds
  subst hNA
  subst hconds
  unfold setCertificateRequestStatus
  simp [isTemporaryCertificate_false cert hnt, hexp, hm,
    SetCertificateRequestCondition, setConditionList_noop]

/-! Concrete fixtures, mirroring the TestSync fixtures of the repository:
a CSR for one DNS name, a matching certificate, a temporary (sentinel
serial) certificate, an expired certificate, a Ready issuer and a
collaborator environment around them. -/

/-- A parsed CSR requesting common name example.com with one DNS name. -/
def csrFix : CSR := ⟨"example.com", ["example.com"], [], []⟩

/-- A certificate matching csrFix, unexpired at clock 100. -/
def certMatchFix : Cert := ⟨"example.com", ["example.com"], [], [], 1, 200⟩

/-- A temporary certificate (sentinel serial) otherwise matching
csrFix. -/
def certTempFix : Cert :=
  ⟨"example.com", ["example.com"], [], [], staticTemporarySerialNumber, 200⟩

/-- A certificate matching csrFix whose NotAfter 50 lies before clock
100. -/
def certExpiredFix : Cert := ⟨"example.com", ["example.com"], [], [], 1, 50⟩

/-- An issuer with the Ready condition True. -/
def issuerReadyFix : GenericIssuer := ⟨"test", [⟨"Ready", .ctrue, "", "", none⟩]⟩

/-- A backend returning a freshly signed certificate. -/
def signOkBackend : CertificateRequest → SignResult :=
  fun _ => .ok (some ⟨.pemCert certMatchFix, .empty⟩)

/-- A backend failing every Sign call. -/
def signFailBackend : CertificateRequest → SignResult :=
  fun _ => .error "sign failed"

/-- An environment where validation passes, the issuer resolves to the
Ready fixture and the factory yields the given backend; the clock reads
100 and the store Update call answers as given. -/
def baseEnv (b : CertificateRequest → SignResult) (upd : Option String) : SyncEnv :=
  { validateCR := fun _ => []
    getIssuer := fun _ _ => .found issuerReadyFix
    validateForIssuer := fun _ _ => []
    issuerFor := fun _ => .ok b
    updateResult := upd
    now := 100 }

/-- A CertificateRequest in namespace default with the given CSR bytes,
status certificate bytes, NotAfter and conditions. -/
def mkCR (csrPEM certPEM : Bytes) (na : Option Int) (conds : List Condition) :
    CertificateRequest :=
  { name := "test", ns := "default"
    spec := { csrPEM := csrPEM, issuerRef := ⟨"test", "", "cert-manager.io"⟩, isCA := false }
    status := { certificate := certPEM, ca := .empty, notAfter := na, conditions := conds } }

/-- A request with a parseable CSR and no certificate in status. -/
def crNoCertFix : CertificateRequest := mkCR (.pemCsr csrFix) .empty none []

/-- C1: the design document and the repository test TestSync expect a request
with no existing certificate to be dispatched to the backend, have
Status.Certificate and CA copied from the response and Ready become
True/Ready; the code instead returns the CertNotFound error before the
signing step.  At a request with a parseable CSR and empty status
certificate, against a Ready issuer and a succeeding backend, Sync returns
the CertNotFound error, performs no Sign call, writes nothing to the store
and leaves the object untouched. -/
theorem sync_no_certificate_errors_without_signing :
    (Sync (baseEnv signOkBackend none) crNoCertFix).err = some (.msg "CertNotFound") ∧
    (Sync (baseEnv signOkBackend none) crNoCertFix).signCalls = [] ∧
    (Sync (baseEnv signOkBackend none) crNoCertFix).updated = none ∧
    (Sync (baseEnv signOkBackend none) crNoCertFix).cr = crNoCertFix :=
  ⟨rfl, rfl, rfl, rfl⟩

/-- A request with empty CSR bytes. -/
def crEmptyCSRFix : CertificateRequest := mkCR .empty .empty none []

/-- C2 counterexample: at a request whose CSRPem is empty, Sync returns the
CSRNotFound error to its caller (the claim says the returned error is nil)
and records nothing on the status conditions (the claim says the failure is
recorded on status). -/
theorem sync_empty_csr_counterexample :
    (Sync (baseEnv signOkBackend none) crEmptyCSRFix).err = some (.msg "CSRNotFound") ∧
    (Sync (baseEnv signOkBackend none) crEmptyCSRFix).cr.status.conditions = [] ∧
    (Sync (baseEnv signOkBackend none) crEmptyCSRFix).updated = none :=
  ⟨rfl, rfl, rfl⟩

/-- C2 amended: for every request whose CSRPem is empty, fails PEM decoding
or fails ASN.1 parsing, Sync returns the corresponding error (CSRNotFound,
CSRParseError, or the parser error) to the caller, leaves the object
untouched, invokes no backend and issues no store write. -/
theorem sync_bad_csr_returns_error_untouched (env : SyncEnv) (cr : CertificateRequest) :
    (bytesLen0 cr.spec.csrPEM = true →
      Sync env cr = ⟨cr, some (.msg "CSRNotFound"), [], none⟩) ∧
    (bytesLen0 cr.spec.csrPEM = false → pemDecodeOk cr.spec.csrPEM = false →
      Sync env cr = ⟨cr, some (.msg "CSRParseError"), [], none⟩) ∧
    (∀ e, bytesLen0 cr.spec.csrPEM = false → pemDecodeOk cr.spec.csrPEM = true →
      parseCertificateRequest cr.spec.csrPEM = .error e →
      Sync env cr = ⟨cr, some (.msg e), [], none⟩) := by
  refine ⟨fun h1 => ?_, fun h1 h2 => ?_, fun e h1 h2 h3 => ?_⟩
  · unfold Sync syncBody updateCertificateStatus
    simp [h1]
  · unfold Sync syncBody updateCertificateStatus
    simp [h1, h2]
  · unfold Sync syncBody updateCertificateStatus
    simp [h1, h2, h3]

/-- C2 amended witness: a non-PEM CSR blob makes Sync return the
CSRParseError error with the object untouched and no write issued. -/
theorem sync_bad_csr_returns_error_untouched_witness :
    Sync (baseEnv signOkBackend none) (mkCR (.garbage 0) .empty none []) =
      ⟨mkCR (.garbage 0) .empty none [], some (.msg "CSRParseError"), [], none⟩ :=
  (sync_bad_csr_returns_error_untouched (baseEnv signOkBackend none)
    (mkCR (.garbage 0) .empty none [])).2.1 rfl rfl

/-- C3: for every request whose parsed status certificate carries the
sentinel serial number, once the round reaches backend dispatch (CSR and
certificate parse, validations pass, issuer found and Ready, factory
succeeds), Sync passes exactly one request to the backend Sign function —
with no assumption at all on how the certificate compares to the CSR —
and the recomputed status carries NotAfter cleared to nothing. -/
theorem sync_temporary_certificate_signs_and_clears_notAfter
    (env : SyncEnv) (cr : CertificateRequest) (csr : CSR) (cert : Cert)
    (iss : GenericIssuer) (b : CertificateRequest → SignResult)
    (hcsr : cr.spec.csrPEM = .pemCsr csr)
    (hcert : cr.status.certificate = .pemCert cert)
    (htemp : cert.serialNumber = staticTemporarySerialNumber)
    (hval : ∀ x, env.validateCR x = [])
    (hiss : ∀ r n, env.getIssuer r n = .found iss)
    (hvalIss : ∀ x i, env.validateForIssuer x i = [])
    (hready : IssuerHasCondition iss "Ready" .ctrue = true)
    (hfac : env.issuerFor iss = .ok b) :
    (Sync env cr).signCalls.length = 1 ∧ (Sync env cr).cr.status.notAfter = none := by
  have hbody := syncBody_dispatch env cr csr cert iss b hcsr hcert hval hiss hvalIss hready hfac
  have htb := isTemporaryCertificate_true cert htemp
  have hb2 : syncBody env cr = sign b (setCertificateRequestStatus env.now cr csr (some cert)) := by
    rw [hbody]; simp [htb]
  have hsc : (Sync env cr).signCalls = (syncBody env cr).signCalls := rfl
  have hcr : (Sync env cr).cr = (syncBody env cr).cr := rfl
  constructor
  · rw [hsc, hb2, sign_signCalls]
    rfl
  · rw [hcr, hb2, sign_notAfter]
    exact setStatus_temporary_notAfter env.now cr csr cert htemp

/-- A request holding the temporary certificate, as left by a bootstrap
backend. -/
def crTempFix : CertificateRequest := mkCR (.pemCsr csrFix) (.pemCert certTempFix) (some 200) []

/-- C3 witness: the temporary-certificate fixture is dispatched to the
backend once and its NotAfter is cleared. -/
theorem sync_temporary_certificate_signs_witness :
    (Sync (baseEnv signOkBackend none) crTempFix).signCalls.length = 1 ∧
    (Sync (baseEnv signOkBackend none) crTempFix).cr.status.notAfter = none :=
  sync_temporary_certificate_signs_and_clears_notAfter
    (baseEnv signOkBackend none) crTempFix csrFix certTempFix issuerReadyFix signOkBackend
    rfl rfl rfl (fun _ => rfl) (fun _ _ => rfl) (fun _ _ => rfl) rfl rfl

/-- A request whose certificate matches its CSR but whose status has no
conditions and no NotAfter yet (first round after issuance). -/
def crFreshMatchFix : CertificateRequest := mkCR (.pemCsr csrFix) (.pemCert certMatchFix) none []

/-- C4 counterexample: on the first reconciliation of a request whose
certificate fully matches its CSR, the backend is indeed never invoked, but
the round adds the Ready condition and the NotAfter field to the status, so
the serialized status differs from the prior one and a store Update is
issued — refuting the unconditional no-op half of the claim. -/
theorem sync_matching_cert_first_round_writes_status :
    (Sync (baseEnv signFailBackend none) crFreshMatchFix).signCalls = [] ∧
    (Sync (baseEnv signFailBackend none) crFreshMatchFix).updated ≠ none := by
  refine ⟨rfl, by decide⟩

/-- C4 amended: for every request whose non-temporary (serial truncated
to int64 differing from the sentinel, as the source compares), unexpired
certificate matches the CSR on every identity attribute, once the round
reaches backend dispatch Sync never invokes the backend; and provided the
prior status already records the certificate (NotAfter equal to the
certificate NotAfter and exactly the Ready/True condition with reason Ready
and the standard message), the recomputed status equals the prior one, the
write collapses to a no-op, no store Update is issued and no error is
returned. -/
theorem sync_converged_matching_request_is_noop
    (env : SyncEnv) (cr : CertificateRequest) (csr : CSR) (cert : Cert)
    (iss : GenericIssuer) (b : CertificateRequest → SignResult) (ltt : Option Int)
    (hcsr : cr.spec.csrPEM = .pemCsr csr)
    (hcert : cr.status.certificate = .pemCert cert)
    (hval : ∀ x, env.validateCR x = [])
    (hiss : ∀ r n, env.getIssuer r n = .found iss)
    (hvalIss : ∀ x i, env.validateForIssuer x i = [])
    (hready : IssuerHasCondition iss "Ready" .ctrue = true)
    (hfac : env.issuerFor iss = .ok b)
    (hnt : bigIntInt64 cert.serialNumber ≠ staticTemporarySerialNumber)
    (hexp : ¬ cert.notAfter < env.now)
    (hCN : CommonNameForCertificateRequest csr = cert.commonName)
    (hDNS : EqualUnsorted cert.dnsNames (DNSNamesForCertificateRequest csr) = true)
    (hURI : EqualUnsorted cert.uris csr.uris = true)
    (hIP : EqualUnsorted cert.ipAddresses csr.ipAddresses = true)
    (hNA : cr.status.notAfter = some cert.notAfter)
    (hconds : cr.status.conditions = [⟨"Ready", .ctrue, "Ready", readyMessage, ltt⟩]) :
    (Sync env cr).signCalls = [] ∧ (Sync env cr).updated = none ∧
    (Sync env cr).err = none ∧ (Sync env cr).cr = cr := by
  have hbody := syncBody_dispatch env cr csr cert iss b hcsr hcert hval hiss hvalIss hready hfac
  have hset := setStatus_converged env.now cr csr cert ltt hnt hexp hCN hDNS hURI hIP hNA hconds
  have hm : ∀ x, certificateMatchesSpec x csr cert = (true, []) :=
    fun x => certificateMatchesSpec_all_match x csr cert hCN hDNS hURI hIP
  have hb2 : syncBody env cr = ⟨cr, none, []⟩ := by
    rw [hbody]
    simp [hset, isTemporaryCertificate_false cert hnt, hm]
  show ((Sync env cr).signCalls = [] ∧ (Sync env cr).updated = none ∧
    (Sync env cr).err = none ∧ (Sync env cr).cr = cr)
  unfold Sync
  rw [hb2]
  simp [updateCertificateStatus]

/-- The Ready condition as the previous converged round left it. -/
def readyCondFix : Condition := ⟨"Ready", .ctrue, "Ready", readyMessage, some 7⟩

/-- A request whose status already records its matching certificate. -/
def crConvergedFix : CertificateRequest :=
  mkCR (.pemCsr csrFix) (.pemCert certMatchFix) (some 200) [readyCondFix]

/-- C4 amended witness: the converged fixture is signed by no backend,
issues no Update and returns no error. -/
theorem sync_converged_matching_request_is_noop_witness :
    (Sync (baseEnv signFailBackend none) crConvergedFix).signCalls = [] ∧
    (Sync (baseEnv signFailBackend none) crConvergedFix).updated = none ∧
    (Sync (baseEnv signFailBackend none) crConvergedFix).err = none ∧
    (Sync (baseEnv signFailBackend none) crConvergedFix).cr = crConvergedFix :=
  sync_converged_matching_request_is_noop
    (baseEnv signFailBackend none) crConvergedFix csrFix certMatchFix issuerReadyFix
    signFailBackend (some 7)
    rfl rfl (fun _ => rfl) (fun _ _ => rfl) (fun _ _ => rfl) rfl rfl
    (by decide) (by decide) rfl rfl rfl rfl rfl rfl

/-- C5: for every request whose non-temporary certificate (serial
truncated to int64 differing from the sentinel, as the source compares)
has NotAfter strictly before the injected clock but matches the CSR on every identity
attribute, once the round reaches backend dispatch the Ready condition is
written False with reason Expired, and the backend Sign is never invoked —
expiry alone does not trigger re-signing, only the temporary-certificate
and mismatch dispatches do. -/
theorem sync_expired_matching_certificate_not_resigned
    (env : SyncEnv) (cr : CertificateRequest) (csr : CSR) (cert : Cert)
    (iss : GenericIssuer) (b : CertificateRequest → SignResult)
    (hcsr : cr.spec.csrPEM = .pemCsr csr)
    (hcert : cr.status.certificate = .pemCert cert)
    (hval : ∀ x, env.validateCR x = [])
    (hiss : ∀ r n, env.getIssuer r n = .found iss)
    (hvalIss : ∀ x i, env.validateForIssuer x i = [])
    (hready : IssuerHasCondition iss "Ready" .ctrue = true)
    (hfac : env.issuerFor iss = .ok b)
    (hnt : bigIntInt64 cert.serialNumber ≠ staticTemporarySerialNumber)
    (hexp : cert.notAfter < env.now)
    (hCN : CommonNameForCertificateRequest csr = cert.commonName)
    (hDNS : EqualUnsorted cert.dnsNames (DNSNamesForCertificateRequest csr) = true)
    (hURI : EqualUnsorted cert.uris csr.uris = true)
    (hIP : EqualUnsorted cert.ipAddresses csr.ipAddresses = true) :
    (Sync env cr).signCalls = [] ∧
    ∃ ltt, GetCertificateRequestCondition (Sync env cr).cr.status.conditions "Ready" =
      some ⟨"Ready", .cfalse, "Expired", expiredMessage cert, ltt⟩ := by
  have hbody := syncBody_dispatch env cr csr cert iss b hcsr hcert hval hiss hvalIss hready hfac
  have hm : ∀ x, certificateMatchesSpec x csr cert = (true, []) :=
    fun x => certificateMatchesSpec_all_match x csr cert hCN hDNS hURI hIP
  have hb2 : syncBody env cr =
      ⟨setCertificateRequestStatus env.now cr csr (some cert), none, []⟩ := by
    rw [hbody]
    simp [isTemporaryCertificate_false cert hnt, hm]
  have hsc : (Sync env cr).signCalls = (syncBody env cr).signCalls := rfl
  have hcr : (Sync env cr).cr = (syncBody env cr).cr := rfl
  constructor
  · rw [hsc, hb2]
  · rw [hcr, hb2]
    rw [show (⟨setCertificateRequestStatus env.now cr csr (some cert), none, []⟩ :
      SyncBodyResult).cr = setCertificateRequestStatus env.now cr csr (some cert) from rfl]
    rw [setStatus_expired env.now cr csr cert hnt hexp]
    simpa [SetCertificateRequestCondition] using
      getCondition_setConditionList env.now "Ready" .cfalse "Expired" (expiredMessage cert)
        cr.status.conditions

/-- A request holding the expired-but-matching certificate. -/
def crExpiredCRFix : CertificateRequest := mkCR (.pemCsr csrFix) (.pemCert certExpiredFix) none []

/-- C5 witness: the expired-certificate fixture receives Ready
False/Expired and no backend call. -/
theorem sync_expired_matching_certificate_not_resigned_witness :
    (Sync (baseEnv signFailBackend none) crExpiredCRFix).signCalls = [] ∧
    ∃ ltt, GetCertificateRequestCondition
      (Sync (baseEnv signFailBackend none) crExpiredCRFix).cr.status.conditions "Ready" =
      some ⟨"Ready", .cfalse, "Expired", expiredMessage certExpiredFix, ltt⟩ :=
  sync_expired_matching_certificate_not_resigned
    (baseEnv signFailBackend none) crExpiredCRFix csrFix certExpiredFix issuerReadyFix
    signFailBackend
    rfl rfl (fun _ => rfl) (fun _ _ => rfl) (fun _ _ => rfl) rfl rfl
    (by decide) (by decide) rfl rfl rfl rfl

/-- C7: the status-persistence step runs at the end of every round — the
written status is exactly what updateCertificateStatus decides on the body
result, whatever the body did — and when the body errored and the
persistence call errored too, the returned error is the aggregate holding
both, the persistence error joined to (not replacing) the originating
one. -/
theorem sync_persists_status_and_aggregates_errors (env : SyncEnv) (cr : CertificateRequest) :
    (Sync env cr).updated = (updateCertificateStatus env cr (syncBody env cr).cr).1 ∧
    (∀ e s, (syncBody env cr).err = some e →
      (updateCertificateStatus env cr (syncBody env cr).cr).2 = some s →
      (Sync env cr).err = some (.aggregate [s, e])) := by
  constructor
  · rfl
  · intro e s he hs
    show (match (updateCertificateStatus env cr (syncBody env cr).cr).2 with
      | some saveErr => newAggregate [some saveErr, (syncBody env cr).err]
      | none => (syncBody env cr).err) = some (.aggregate [s, e])
    rw [he, hs]
    rfl

/-- C7 witness: a temporary-certificate round whose backend Sign fails and
whose store Update fails returns the aggregate of the save error and the
sign error, in that order. -/
theorem sync_persists_status_and_aggregates_errors_witness :
    (Sync (baseEnv signFailBackend (some "update failed")) crTempFix).err =
      some (.aggregate [.msg "update failed", .msg "sign failed"]) :=
  (sync_persists_status_and_aggregates_errors
    (baseEnv signFailBackend (some "update failed")) crTempFix).2
    (.msg "sign failed") (.msg "update failed") rfl rfl

/-- A CSR with an empty requested common name and two DNS names. -/
def csrEmptyCNFix : CSR := ⟨"", ["a.com", "b.com"], [], []⟩

/-- A certificate whose synthesized common name b.com appears among its
own DNS names, with DNS/URI/IP agreeing with csrEmptyCNFix. -/
def certSynthCNFix : Cert := ⟨"b.com", ["a.com", "b.com"], [], [], 1, 200⟩

/-- C6 counterexample: the claim accepts an empty requested CN whenever the
certificate CN appears among the certificate DNS names; here the requested
CN is empty, the certificate CN b.com is listed among its own DNS names and
every other attribute matches, yet the evaluator records a common-name
mismatch — the CN comparison is a plain equality against the CSR-derived
expected name and never consults the certificate DNS names. -/
theorem certificateMatchesSpec_empty_cn_counterexample :
    (certificateMatchesSpec crNoCertFix csrEmptyCNFix certSynthCNFix).1 = false ∧
    (certificateMatchesSpec crNoCertFix csrEmptyCNFix certSynthCNFix).2 =
      ["Common name on TLS certificate not up to date: b.com"] := by
  decide

/-- C6 amended: the evaluator records a common-name mismatch exactly when
the CSR-derived expected common name differs from the certificate common
name — an empty requested CN is not excused by the certificate CN appearing
among the certificate DNS names — and reports a match when the expected CN
and every SAN multiset agree. -/
theorem certificateMatchesSpec_cn_plain_equality (cr : CertificateRequest) (csr : CSR)
    (cert : Cert) :
    (CommonNameForCertificateRequest csr ≠ cert.commonName →
      (certificateMatchesSpec cr csr cert).1 = false) ∧
    (CommonNameForCertificateRequest csr = cert.commonName →
      EqualUnsorted cert.dnsNames (DNSNamesForCertificateRequest csr) = true →
      EqualUnsorted cert.uris csr.uris = true →
      EqualUnsorted cert.ipAddresses csr.ipAddresses = true →
      certificateMatchesSpec cr csr cert = (true, [])) := by
  constructor
  · intro h
    unfold certificateMatchesSpec
    simp only [h, not_false_eq_true, if_true, List.nil_append, ite_not]
    split_ifs <;> simp_all
  · intro h1 h2 h3 h4
    exact certificateMatchesSpec_all_match cr csr cert h1 h2 h3 h4

/-- A certificate whose common name differs from the request. -/
def certOtherCNFix : Cert := ⟨"other.com", ["example.com"], [], [], 1, 200⟩

/-- C6 amended witness: a differing common name alone fails the match. -/
theorem certificateMatchesSpec_cn_plain_equality_witness :
    (certificateMatchesSpec crNoCertFix csrFix certOtherCNFix).1 = false :=
  (certificateMatchesSpec_cn_plain_equality crNoCertFix csrFix certOtherCNFix).1 (by decide)

/-- When the Approved condition differs between the old and new object,
Review issues exactly the one approve call, whatever the collaborator
answers. -/
theorem review_approved_changed_calls (sar : SARCall → Except String Bool) (ui : UserInfo)
    (oldCR newCR : CertificateRequest)
    (h : GetCertificateRequestCondition oldCR.status.conditions "Approved" ≠
      GetCertificateRequestCondition newCR.status.conditions "Approved") :
    (Review sar ui oldCR newCR).calls = [reviewRequest ui newCR "approve"] := by
  cases hs : sar (reviewRequest ui newCR "approve") with
  | error e => simp [Review, h, hs]
  | ok bo => cases bo <;> simp [Review, h, hs]

/-- C8: an update that changes neither the Approved nor the Denied
condition passes with no errors and no collaborator call; an update that
changes the Approved condition issues exactly one collaborator call with
verb approve and resource name group/kind of the issuer reference, and a
negative answer yields the Forbidden field error. -/
theorem review_approval_gate (sar : SARCall → Except String Bool) (ui : UserInfo)
    (oldCR newCR : CertificateRequest) :
    (GetCertificateRequestCondition oldCR.status.conditions "Approved" =
        GetCertificateRequestCondition newCR.status.conditions "Approved" →
      GetCertificateRequestCondition oldCR.status.conditions "Denied" =
        GetCertificateRequestCondition newCR.status.conditions "Denied" →
      Review sar ui oldCR newCR = ⟨[], []⟩) ∧
    (GetCertificateRequestCondition oldCR.status.conditions "Approved" ≠
        GetCertificateRequestCondition newCR.status.conditions "Approved" →
      (Review sar ui oldCR newCR).calls = [reviewRequest ui newCR "approve"] ∧
      (reviewRequest ui newCR "approve").verb = "approve" ∧
      (reviewRequest ui newCR "approve").rname =
        goFilepathJoin newCR.spec.issuerRef.group newCR.spec.issuerRef.kind ∧
      (newCR.spec.issuerRef.group ≠ "" → newCR.spec.issuerRef.kind ≠ "" →
        (reviewRequest ui newCR "approve").rname =
          newCR.spec.issuerRef.group ++ "/" ++ newCR.spec.issuerRef.kind) ∧
      (sar (reviewRequest ui newCR "approve") = .ok false →
        Review sar ui oldCR newCR =
          ⟨[.forbidden "status.conditions" forbiddenMessage],
           [reviewRequest ui newCR "approve"]⟩)) := by
  constructor
  · intro h1 h2
    simp [Review, h1, h2]
  · intro h
    refine ⟨review_approved_changed_calls sar ui oldCR newCR h, rfl, rfl, ?_, ?_⟩
    · intro hg hk
      simp [reviewRequest, goFilepathJoin, hg, hk]
    · intro hs
      simp [Review, h, hs]

/-- The old object of the admission fixtures: no conditions yet. -/
def crApprovalOldFix : CertificateRequest :=
  { name := "test", ns := "default"
    spec := { csrPEM := .empty, issuerRef := ⟨"test", "Issuer", "cert-manager.io"⟩
              isCA := false }
    status := { certificate := .empty, ca := .empty, notAfter := none, conditions := [] } }

/-- The new object of the admission fixtures: Approved was added. -/
def crApprovalNewFix : CertificateRequest :=
  { crApprovalOldFix with status := { crApprovalOldFix.status with
      conditions := [⟨"Approved", .ctrue, "cert-manager.io", "approved", some 1⟩] } }

/-- The acting identity of the admission fixtures. -/
def uiFix : UserInfo := ⟨"alice", ["system:authenticated"], "uid-1"⟩

/-- A collaborator denying every access check. -/
def sarDenyAll : SARCall → Except String Bool := fun _ => .ok false

/-- C8 witness: newly setting Approved issues the one approve call named
cert-manager.io/Issuer, and the denying collaborator makes Review return
the Forbidden error. -/
theorem review_approval_gate_witness :
    (Review sarDenyAll uiFix crApprovalOldFix crApprovalNewFix).calls =
      [reviewRequest uiFix crApprovalNewFix "approve"] ∧
    (reviewRequest uiFix crApprovalNewFix "approve").rname = "cert-manager.io/Issuer" ∧
    Review sarDenyAll uiFix crApprovalOldFix crApprovalNewFix =
      ⟨[.forbidden "status.conditions" forbiddenMessage],
       [reviewRequest uiFix crApprovalNewFix "approve"]⟩ := by
  obtain ⟨hcalls, hverb, hname, hslash, hforb⟩ :=
    (review_approval_gate sarDenyAll uiFix crApprovalOldFix crApprovalNewFix).2 (by decide)
  refine ⟨hcalls, ?_, hforb rfl⟩
  rw [hslash (by decide) (by decide)]
  rfl

/-- C10: when both the Approved and the Denied condition changed, the
switch tests Approved first, so Review performs exactly one collaborator
call and that call carries verb approve; no deny check is ever issued. -/
theorem review_both_changed_checks_approve_only (sar : SARCall → Except String Bool)
    (ui : UserInfo) (oldCR newCR : CertificateRequest)
    (hA : GetCertificateRequestCondition oldCR.status.conditions "Approved" ≠
      GetCertificateRequestCondition newCR.status.conditions "Approved")
    (_hD : GetCertificateRequestCondition oldCR.status.conditions "Denied" ≠
      GetCertificateRequestCondition newCR.status.conditions "Denied") :
    (Review sar ui oldCR newCR).calls = [reviewRequest ui newCR "approve"] ∧
    ∀ c ∈ (Review sar ui oldCR newCR).calls, c.verb = "approve" := by
  have hc := review_approved_changed_calls sar ui oldCR newCR hA
  refine ⟨hc, fun c hcm => ?_⟩
  rw [hc] at hcm
  simp only [List.mem_singleton] at hcm
  rw [hcm]
  rfl

/-- The new object with both Approved and Denied added at once. -/
def crBothNewFix : CertificateRequest :=
  { crApprovalOldFix with status := { crApprovalOldFix.status with
      conditions := [⟨"Approved", .ctrue, "policy", "approved", some 1⟩,
                     ⟨"Denied", .ctrue, "policy", "denied", some 1⟩] } }

/-- C10 witness: adding Approved and Denied together issues the single
approve call. -/
theorem review_both_changed_checks_approve_only_witness :
    (Review sarDenyAll uiFix crApprovalOldFix crBothNewFix).calls =
      [reviewRequest uiFix crBothNewFix "approve"] :=
  (review_both_changed_checks_approve_only sarDenyAll uiFix crApprovalOldFix crBothNewFix
    (by decide) (by decide)).1

/-- C9: issuer resolution dispatches on the reference kind — empty or the
namespaced kind reads through the namespaced lister under the supplied
namespace; the cluster-scoped kind ignores the namespace, reads through
the cluster lister when present and fails with the explicit
single-namespace error when that lister is absent; any other kind fails
with the invalid-kind error naming the two accepted kinds. -/
theorem getter_issuer_dispatch (h : getterImpl) (ref : ObjectReference) (ns : String) :
    ((ref.kind = "" ∨ ref.kind = IssuerKind) →
      h.Issuer ref ns = (match h.issuerLister ns ref.name with
        | some iss => .ok iss
        | none => .error (.notFound IssuerKind ns ref.name))) ∧
    (ref.kind = ClusterIssuerKind →
      (∀ ns2, h.Issuer ref ns2 = h.Issuer ref ns) ∧
      (h.clusterIssuerLister = none →
        h.Issuer ref ns = .error (.clusterScoped (clusterScopedMessage ref.name))) ∧
      (∀ lister, h.clusterIssuerLister = some lister →
        h.Issuer ref ns = (match lister ref.name with
          | some iss => .ok iss
          | none => .error (.notFound ClusterIssuerKind "" ref.name)))) ∧
    (ref.kind ≠ "" → ref.kind ≠ IssuerKind → ref.kind ≠ ClusterIssuerKind →
      h.Issuer ref ns = .error (.invalidKind (invalidKindMessage ref.kind))) := by
  refine ⟨fun hk => ?_, fun hk => ?_, fun h1 h2 h3 => ?_⟩
  · unfold getterImpl.Issuer
    rw [if_pos hk]
  · have hno : ¬ (ref.kind = "" ∨ ref.kind = IssuerKind) := by
      rw [hk]
      decide
    refine ⟨fun ns2 => ?_, fun hcl => ?_, fun lister hcl => ?_⟩
    · unfold getterImpl.Issuer
      rw [if_neg hno, if_neg hno]
    · unfold getterImpl.Issuer
      rw [if_neg hno, if_pos hk, hcl]
    · unfold getterImpl.Issuer
      rw [if_neg hno, if_pos hk, hcl]
  · have hno : ¬ (ref.kind = "" ∨ ref.kind = IssuerKind) := by
      simp [h1, h2]
    unfold getterImpl.Issuer
    rw [if_neg hno, if_neg h3]

/-- A deployment scoped to one namespace: a namespaced lister holding the
fixture issuer, no cluster lister. -/
def getterFix : getterImpl :=
  { issuerLister := fun ns name =>
      if ns = "default" then if name = "test" then some issuerReadyFix else none else none
    clusterIssuerLister := none }

/-- C9 witness: an empty kind resolves through the namespaced lister; the
cluster kind fails explicitly without a cluster lister; an unknown kind is
the invalid-kind error. -/
theorem getter_issuer_dispatch_witness :
    getterFix.Issuer ⟨"test", "", "g"⟩ "default" = .ok issuerReadyFix ∧
    getterFix.Issuer ⟨"test", "ClusterIssuer", "g"⟩ "default" =
      .error (.clusterScoped (clusterScopedMessage "test")) ∧
    getterFix.Issuer ⟨"test", "Foo", "g"⟩ "default" =
      .error (.invalidKind (invalidKindMessage "Foo")) := by
  refine ⟨?_, ?_, ?_⟩
  · rw [(getter_issuer_dispatch getterFix ⟨"test", "", "g"⟩ "default").1 (Or.inl rfl)]
    rfl
  · exact ((getter_issuer_dispatch getterFix ⟨"test", "ClusterIssuer", "g"⟩ "default").2.1
      rfl).2.1 rfl
  · exact (getter_issuer_dispatch getterFix ⟨"test", "Foo", "g"⟩ "default").2.2
      (by decide) (by decide) (by decide)

end CertManager
